import Mathlib

/-!
Verification of the `rapier-connector` adapter (Phaser <-> Rapier bridge).

The single source file defines `addRidgiBody` (shape resolution, body
construction), `createRapierPhysics` (per-frame `update` synchronization
loop, `destroy`, `createEventQueue`, debug rendering).  We embed those
operations as pure Lean functions over rational-valued transform state.
JavaScript numbers are modelled as `Rat`; reference identity of display
objects is modelled by an `oid` field; `console.error` calls are modelled
as a returned list of diagnostic strings; external physics-engine calls
(world.step, createCollider, ...) are treated as opaque: the simulation
step is an arbitrary function on rigid-body state.
-/

namespace RapierConnector

/-- 2D vector, `RAPIER.Vector2`. -/
structure Vector2 where
  x : Rat
  y : Rat
deriving DecidableEq, Repr

/-- `RAPIER.ShapeType` enum (rapier2d).  The adapter only compares it against
named enum members, so we embed it as an inductive. -/
inductive ShapeType where
  | Ball
  | Cuboid
  | Capsule
  | Segment
  | Polyline
  | Triangle
  | TriMesh
  | HeightField
  | ConvexPolygon
  | RoundCuboid
  | RoundTriangle
  | RoundConvexPolygon
  | HalfSpace
deriving DecidableEq, Repr

/-- `RAPIER.RigidBodyType` enum. -/
inductive RigidBodyType where
  | Dynamic
  | Fixed
  | KinematicPositionBased
  | KinematicVelocityBased
deriving DecidableEq, Repr

/-- A fully built collider descriptor (`RAPIER.ColliderDesc`), restricted to
the constructors the adapter invokes. -/
inductive ColliderDesc where
  | cuboid (hx hy : Rat)
  | ball (radius : Rat)
  | capsule (halfHeight radius : Rat)
  | triangle (a b c : Vector2)
  | roundCuboid (hx hy borderRadius : Rat)
  | roundTriangle (a b c : Vector2) (borderRadius : Rat)
deriving DecidableEq, Repr

/-- The `colliderDesc` argument of `addRidgiBody` is a union
`RAPIER.ColliderDesc | RAPIER.ShapeType`; `typeof colliderDesc === 'number'`
distinguishes the shape-kind enum from a pre-built descriptor. -/
inductive ColliderOpt where
  | desc (d : ColliderDesc)
  | shape (s : ShapeType)
deriving DecidableEq, Repr

/-- The value left in the local `_colliderDesc` after shape resolution:
either a real descriptor, or (for the unimplemented shape-kind branches and
enum members outside the if/else chain) the raw enum number that was cast to
`ColliderDesc` and never replaced - an unusable collider argument. -/
inductive ResolvedCollider where
  | usable (d : ColliderDesc)
  | raw (s : ShapeType)
deriving DecidableEq, Repr

/-- A Phaser display object, restricted to the fields the adapter reads
(`x`, `y`, `rotation`, `displayWidth`, `displayHeight`, `originX`).
`oid` models JavaScript reference identity (`===`): each allocated display
object carries a distinct `oid`. -/
structure GameObject where
  oid : Nat
  x : Rat
  y : Rat
  rotation : Rat
  displayWidth : Rat
  displayHeight : Rat
  originX : Rat
deriving DecidableEq, Repr

/-- Rigid-body state visible to the adapter: motion kind, current pose, and
the next-kinematic targets set by `setNextKinematicTranslation` /
`setNextKinematicRotation`. -/
structure RigidBody where
  bodyType : RigidBodyType
  translation : Vector2
  rotation : Rat
  nextTranslation : Option Vector2
  nextRotation : Option Rat
deriving DecidableEq, Repr

/-- Collider state visible to the adapter: the resolved descriptor it was
created from and its rotation (written by `collider.setRotation`). -/
structure Collider where
  shape : ResolvedCollider
  rotation : Rat
deriving DecidableEq, Repr

/-- `TRidgiBodyObject`: one managed association, as stored in the `bodies`
array. -/
structure RidgiBodyObject where
  rigidBody : RigidBody
  collider : Collider
  gameObject : GameObject
  phaserTransformations : Bool
deriving DecidableEq, Repr

/-- Diagnostic text of the `console.error` in the unimplemented shape-kind
branches of `addRidgiBody` (the `HalfSpace` branch really prints
"HeightSpace", a typo kept from the source). -/
def unimplementedMsg : ShapeType → String
  | ShapeType.TriMesh => "TriMesh not implemented, please use a ColliderDesc object"
  | ShapeType.HalfSpace => "HeightSpace not implemented, please use a ColliderDesc object"
  | ShapeType.Segment => "Segment not implemented, please use a ColliderDesc object"
  | ShapeType.ConvexPolygon => "ConvexPolygon not implemented, please use a ColliderDesc object"
  | ShapeType.RoundConvexPolygon => "RoundConvexPolygon not implemented, please use a ColliderDesc object"
  | _ => ""

/-- Shape resolution of `addRidgiBody` (source lines 46-102): `_colliderDesc`
starts as the bounding-box cuboid, is overwritten by the passed descriptor
or by the enum-selected constructor, and in the unimplemented branches the
raw cast enum value is left in place with a `console.error`.  Returns the
final `_colliderDesc` together with emitted diagnostics. -/
def resolveCollider (colliderDesc : Option ColliderOpt) (dW dH : Rat) :
    ResolvedCollider × List String :=
  match colliderDesc with
  | none => (ResolvedCollider.usable (ColliderDesc.cuboid (dW / 2) (dH / 2)), [])
  | some (ColliderOpt.desc d) => (ResolvedCollider.usable d, [])
  | some (ColliderOpt.shape s) =>
    match s with
    | ShapeType.Ball =>
        (ResolvedCollider.usable (ColliderDesc.ball (dW / 2)), [])
    | ShapeType.Capsule =>
        (ResolvedCollider.usable (ColliderDesc.capsule (dW / 4) (dW / 2)), [])
    | ShapeType.Cuboid =>
        (ResolvedCollider.usable (ColliderDesc.cuboid (dW / 2) (dH / 2)), [])
    | ShapeType.Triangle =>
        (ResolvedCollider.usable (ColliderDesc.triangle
          ⟨0, -(dH / 2)⟩ ⟨-(dW / 2), dH / 2⟩ ⟨dW / 2, dH / 2⟩), [])
    | ShapeType.RoundCuboid =>
        (ResolvedCollider.usable (ColliderDesc.roundCuboid (dW / 2) (dH / 2) 5), [])
    | ShapeType.RoundTriangle =>
        (ResolvedCollider.usable (ColliderDesc.roundTriangle
          ⟨0, -(dH / 2)⟩ ⟨-(dW / 2), dH / 2⟩ ⟨dW / 2, dH / 2⟩ 5), [])
    | ShapeType.TriMesh =>
        (ResolvedCollider.raw s, [unimplementedMsg s])
    | ShapeType.HalfSpace =>
        (ResolvedCollider.raw s, [unimplementedMsg s])
    | ShapeType.Segment =>
        (ResolvedCollider.raw s, [unimplementedMsg s])
    | ShapeType.ConvexPolygon =>
        (ResolvedCollider.raw s, [unimplementedMsg s])
    | ShapeType.RoundConvexPolygon =>
        (ResolvedCollider.raw s, [unimplementedMsg s])
    | ShapeType.Polyline =>
        (ResolvedCollider.raw s, [])
    | ShapeType.HeightField =>
        (ResolvedCollider.raw s, [])

/-- Rigid-body-kind selection of `addRidgiBody` (source lines 104-126): the
switch maps every enum member to its own constructor, and `undefined` (and
the unreachable default) to Dynamic. -/
def selectBodyType : Option RigidBodyType → RigidBodyType
  | none => RigidBodyType.Dynamic
  | some t => t

/-- `addRidgiBody` (source lines 37-143): resolves the collider, selects the
body kind, initializes the body's translation/rotation from the display
object, creates body and collider in the world (opaque calls, modelled by
building the records), and returns the association record.  The function is
a total translation of the source, which contains no throw statement; the
diagnostics list carries the `console.error` output. -/
def addRidgiBody (body : GameObject) (rigidBodyType : Option RigidBodyType)
    (colliderDesc : Option ColliderOpt) (phaserTransformations : Option Bool) :
    RidgiBodyObject × List String :=
  let rc := resolveCollider colliderDesc body.displayWidth body.displayHeight
  ({ rigidBody :=
      { bodyType := selectBodyType rigidBodyType
        translation := ⟨body.x, body.y⟩
        rotation := body.rotation
        nextTranslation := none
        nextRotation := none }
     collider := { shape := rc.1, rotation := body.rotation }
     gameObject := body
     phaserTransformations := phaserTransformations.getD false }, rc.2)

/-- Diagnostic text of the mirroring-misuse `console.error` in `update`. -/
def mirrorMisuseMsg : String :=
  "Phaser transformations are only available for KinematicPositionBased rigid bodies"

/-- Per-association body of the `bodies.forEach` loop in `update` (source
lines 191-222): skip Fixed bodies; with `phaserTransformations` set, either
push the display transform onto the kinematic targets and collider (for
KinematicPositionBased - the source guard `isKinematic() && bodyType() ===
KinematicPositionBased` is equivalent to `bodyType = KinematicPositionBased`)
or report a diagnostic; otherwise copy the simulated pose onto the display
object. -/
def syncAssociation (a : RidgiBodyObject) : RidgiBodyObject × List String :=
  if a.rigidBody.bodyType = RigidBodyType.Fixed then
    (a, [])
  else if a.phaserTransformations then
    if a.rigidBody.bodyType = RigidBodyType.KinematicPositionBased then
      let translation : Vector2 :=
        ⟨a.gameObject.x - a.gameObject.displayWidth * (a.gameObject.originX - 1/2),
         a.gameObject.y⟩
      ({ a with
          rigidBody :=
            { a.rigidBody with
                nextTranslation := some translation
                nextRotation := some a.gameObject.rotation }
          collider := { a.collider with rotation := a.gameObject.rotation } }, [])
    else
      (a, [mirrorMisuseMsg])
  else
    ({ a with
        gameObject :=
          { a.gameObject with
              x := a.rigidBody.translation.x
              y := a.rigidBody.translation.y
              rotation := a.rigidBody.rotation } }, [])

/-- One frame for a single association with an opaque simulation step: the
world is stepped first (`step` mutates the rigid body arbitrarily), then the
sync loop body runs. -/
def stepAndSync (step : RigidBody → RigidBody) (a : RidgiBodyObject) : RidgiBodyObject :=
  (syncAssociation { a with rigidBody := step a.rigidBody }).1

/-- The sync pass of `update` over the whole `bodies` array:
`bodies.forEach(...)` visits the array front to back, and each iteration
touches only its own association's state, so the pass is the elementwise map
of `syncAssociation`. -/
def updateBodies (bodies : List RidgiBodyObject) : List RidgiBodyObject :=
  bodies.map (fun b => (syncAssociation b).1)

/-- Iteration order of the `bodies.forEach` sync pass, as the sequence of
display-object identities visited. -/
def updateOrder (bodies : List RidgiBodyObject) : List Nat :=
  bodies.map (fun b => b.gameObject.oid)

/-- The public `addRigidBody` method acting on the managed `bodies` array
(source lines 266-276): builds the association via `addRidgiBody` and
prepends it with `bodies.unshift(_body)`.  Returns the new array, the
returned `TPhysicsObject` fields, and the diagnostics. -/
def addRigidBodyOp (bodies : List RidgiBodyObject) (body : GameObject)
    (rigidBodyType : Option RigidBodyType) (colliderDesc : Option ColliderOpt)
    (phaserTransformations : Option Bool) :
    List RidgiBodyObject × RidgiBodyObject × List String :=
  let r := addRidgiBody body rigidBodyType colliderDesc phaserTransformations
  (r.1 :: bodies, r.1, r.2)

/-- Sequential attachment of a list of display objects with default options,
front of the list attached first. -/
def attachAll (bodies : List RidgiBodyObject) (gs : List GameObject) :
    List RidgiBodyObject :=
  gs.foldl (fun bs g => (addRigidBodyOp bs g none none none).1) bodies

/-- Observable side effects of `destroy`, in program order. -/
inductive DestroyEvent where
  | removeRigidBody (rb : RigidBody)
  | destroyGameObject (oid : Nat)
  | spliceAssociation (index : Nat)
deriving DecidableEq, Repr

/-- The `destroy` method (source lines 292-306): `bodies.find` locates the
first association whose `gameObject` is reference-equal (`===`, modelled by
`oid` equality) to the argument; if found, `world.removeRigidBody`, then
`gameObject.destroy()`, then `indexOf`/`splice` remove the association from
the array; otherwise nothing happens.  Returns the resulting array and the
side-effect trace. -/
def destroy (bodies : List RidgiBodyObject) (target : GameObject) :
    List RidgiBodyObject × List DestroyEvent :=
  match bodies.find? (fun b => b.gameObject.oid == target.oid) with
  | none => (bodies, [])
  | some body =>
      (bodies.eraseIdx (bodies.findIdx (fun b => b.gameObject.oid == target.oid)),
       [DestroyEvent.removeRigidBody body.rigidBody,
        DestroyEvent.destroyGameObject body.gameObject.oid,
        DestroyEvent.spliceAssociation
          (bodies.findIdx (fun b => b.gameObject.oid == target.oid))])

/-- The `eventQueue` closure variable of `createRapierPhysics` together with
an allocation counter (each `new RAPIER.EventQueue(true)` yields a fresh
instance, identified by a number) and the trace of `eventQueue.free()`
calls. -/
structure QueueState where
  eventQueue : Option Nat
  nextId : Nat
  freed : List Nat
deriving DecidableEq, Repr

/-- Initial queue state of a fresh world: `let eventQueue: ... | undefined`. -/
def initQueueState : QueueState := { eventQueue := none, nextId := 0, freed := [] }

/-- `createEventQueue` (source lines 311-321): allocates a fresh queue and
stores it in the shared `eventQueue` variable; returns the new state and the
id of the freshly created queue instance. -/
def createEventQueue (s : QueueState) : QueueState × Nat :=
  ({ s with eventQueue := some s.nextId, nextId := s.nextId + 1 }, s.nextId)

/-- The `free` function returned by `createEventQueue`.  Its body reads and
writes the shared closure variable `eventQueue`, not the instance that was
returned next to it, so every returned `free` denotes this same state
transition: if a queue is active, call `.free()` on it and clear the
variable; otherwise do nothing. -/
def releaseEventQueue (s : QueueState) : QueueState :=
  match s.eventQueue with
  | some q => { s with eventQueue := none, freed := s.freed ++ [q] }
  | none => s

/-- Whether `update` steps the world with event collection
(`world.step(eventQueue)` vs `world.step()`, source lines 181-189). -/
def stepUsesEvents (s : QueueState) : Bool := s.eventQueue.isSome

/-- One `lineStyle`/`lineBetween` pair issued by the debug-render loop:
segment endpoints and the arguments fed to the color machinery
(`lineStyle(2, GetColor(r*255, g*255, b*255), a)`). -/
structure DrawnSegment where
  x1 : Rat
  y1 : Rat
  x2 : Rat
  y2 : Rat
  red255 : Rat
  green255 : Rat
  blue255 : Rat
  alpha : Rat
deriving DecidableEq, Repr

/-- The debug-render loop of `update` (source lines 231-246), translated
literally: `for (let i = 0; i < vertices.length; i += 4)` reads the segment
endpoints at `vertices[i..i+3]` and, with `colorIndex = i * 2`, the color
channels at `colors[colorIndex..colorIndex+3]`; r, g, b are scaled by 255
and a is passed as alpha.  `fuel` bounds the iteration count; out-of-range
typed-array reads are modelled by `getD _ 0`. -/
def debugLoopAux (vertices colors : List Rat) (i : Nat) : Nat → List DrawnSegment
  | 0 => []
  | fuel + 1 =>
    if i < vertices.length then
      { x1 := vertices.getD i 0
        y1 := vertices.getD (i + 1) 0
        x2 := vertices.getD (i + 2) 0
        y2 := vertices.getD (i + 3) 0
        red255 := colors.getD (i * 2) 0 * 255
        green255 := colors.getD (i * 2 + 1) 0 * 255
        blue255 := colors.getD (i * 2 + 2) 0 * 255
        alpha := colors.getD (i * 2 + 3) 0 } :: debugLoopAux vertices colors (i + 4) fuel
    else []

/-- The sequence of segments drawn by one debug-render pass over the flat
`vertices`/`colors` buffers returned by `world.debugRender()`. -/
def debugDraw (vertices colors : List Rat) : List DrawnSegment :=
  debugLoopAux vertices colors 0 vertices.length

/-- Number of iterations the debug loop performs: one per started group of
four vertex floats. -/
def numSegments (vertices : List Rat) : Nat := (vertices.length + 3) / 4

/-- The segment the claim's reference reading predicts for index `k`: vertex
floats at positions `4k..4k+3` of `vertices` and - indexed in lockstep -
color floats at positions `4k..4k+3` of `colors`. -/
def claimSegment (vertices colors : List Rat) (k : Nat) : DrawnSegment :=
  { x1 := vertices.getD (4 * k) 0
    y1 := vertices.getD (4 * k + 1) 0
    x2 := vertices.getD (4 * k + 2) 0
    y2 := vertices.getD (4 * k + 3) 0
    red255 := colors.getD (4 * k) 0 * 255
    green255 := colors.getD (4 * k + 1) 0 * 255
    blue255 := colors.getD (4 * k + 2) 0 * 255
    alpha := colors.getD (4 * k + 3) 0 }

/-- The segment the code actually draws at loop index `k`: vertex floats at
`4k..4k+3`, color floats at `8k..8k+3` (`colorIndex = i * 2` with `i = 4k`). -/
def codeSegment (vertices colors : List Rat) (k : Nat) : DrawnSegment :=
  { x1 := vertices.getD (4 * k) 0
    y1 := vertices.getD (4 * k + 1) 0
    x2 := vertices.getD (4 * k + 2) 0
    y2 := vertices.getD (4 * k + 3) 0
    red255 := colors.getD (8 * k) 0 * 255
    green255 := colors.getD (8 * k + 1) 0 * 255
    blue255 := colors.getD (8 * k + 2) 0 * 255
    alpha := colors.getD (8 * k + 3) 0 }

/-- Shape resolution as the specification words it, for the refinement claim
about the shape-kind mapping: box to the display bounding box, ball of
radius half the display width, capsule of half-height a quarter and radius
half the display width, the isoceles triangle with apex at top-center and
base corners at bottom-left/bottom-right, and rounded variants adding a
fixed corner radius; `none` for the unimplemented kinds. -/
def specShapeMap (s : ShapeType) (dW dH : Rat) : Option ColliderDesc :=
  match s with
  | ShapeType.Cuboid => some (ColliderDesc.cuboid (dW / 2) (dH / 2))
  | ShapeType.Ball => some (ColliderDesc.ball (dW / 2))
  | ShapeType.Capsule => some (ColliderDesc.capsule (dW / 4) (dW / 2))
  | ShapeType.Triangle =>
      some (ColliderDesc.triangle ⟨0, -(dH / 2)⟩ ⟨-(dW / 2), dH / 2⟩ ⟨dW / 2, dH / 2⟩)
  | ShapeType.RoundCuboid => some (ColliderDesc.roundCuboid (dW / 2) (dH / 2) 5)
  | ShapeType.RoundTriangle =>
      some (ColliderDesc.roundTriangle ⟨0, -(dH / 2)⟩ ⟨-(dW / 2), dH / 2⟩ ⟨dW / 2, dH / 2⟩ 5)
  | _ => none

/-! ### Sample data used by the witness and counterexample theorems -/

/-- A concrete display object. -/
def gSample : GameObject :=
  { oid := 1, x := 10, y := 20, rotation := 1/2,
    displayWidth := 8, displayHeight := 6, originX := 1/4 }

/-- A second concrete display object, distinct reference from `gSample`. -/
def gSample2 : GameObject :=
  { oid := 2, x := -3, y := 7, rotation := 0,
    displayWidth := 2, displayHeight := 2, originX := 1/2 }

/-- A concrete association with a KinematicPositionBased body and mirroring
enabled. -/
def aKpbMirror : RidgiBodyObject :=
  { rigidBody :=
      { bodyType := RigidBodyType.KinematicPositionBased
        translation := ⟨0, 0⟩, rotation := 0
        nextTranslation := none, nextRotation := none }
    collider := { shape := ResolvedCollider.usable (ColliderDesc.cuboid 4 3), rotation := 0 }
    gameObject := gSample
    phaserTransformations := true }

/-- A concrete association with a Fixed body and mirroring enabled. -/
def aFixedMirror : RidgiBodyObject :=
  { rigidBody :=
      { bodyType := RigidBodyType.Fixed
        translation := ⟨5, 5⟩, rotation := 0
        nextTranslation := none, nextRotation := none }
    collider := { shape := ResolvedCollider.usable (ColliderDesc.cuboid 1 1), rotation := 0 }
    gameObject := gSample2
    phaserTransformations := true }

/-- A concrete association with a Dynamic body and mirroring enabled. -/
def aDynMirror : RidgiBodyObject :=
  { rigidBody :=
      { bodyType := RigidBodyType.Dynamic
        translation := ⟨1, 2⟩, rotation := 3
        nextTranslation := none, nextRotation := none }
    collider := { shape := ResolvedCollider.usable (ColliderDesc.ball 4), rotation := 0 }
    gameObject := gSample
    phaserTransformations := true }

/-- A concrete simulation step that moves a body to (3, 4). -/
def stepSample : RigidBody → RigidBody :=
  fun rb => { rb with translation := ⟨3, 4⟩ }

/-- Concrete debug vertex buffer: two segments, eight floats. -/
def vsEx : List Rat := [0, 0, 1, 0, 2, 0, 3, 0]

/-- Concrete debug color buffer: four floats per vertex, sixteen floats for
two segments; positions 4 and 8 hold different red channels. -/
def csEx : List Rat := [1, 0, 0, 1, 1/10, 0, 0, 1, 9/10, 0, 0, 1, 0, 1, 0, 1]

/-! ### Helper lemmas -/

/-- `destroy` is a no-op when the lookup fails. -/
theorem destroy_of_find_eq_none (l : List RidgiBodyObject) (g : GameObject)
    (h : l.find? (fun b => b.gameObject.oid == g.oid) = none) :
    destroy l g = (l, []) := by
  unfold destroy
  rw [h]

/-- If a `destroy` call produced no side effects, its lookup failed. -/
theorem find_eq_none_of_destroy_snd_nil (l : List RidgiBodyObject) (g : GameObject)
    (h : (destroy l g).2 = []) :
    l.find? (fun b => b.gameObject.oid == g.oid) = none := by
  unfold destroy at h
  cases hf : l.find? (fun b => b.gameObject.oid == g.oid) with
  | none => rfl
  | some b => rw [hf] at h; simp at h

/-- Destroying a second time is a no-op, provided the display object was
registered at most once. -/
theorem destroy_destroy (bodies : List RidgiBodyObject) (g : GameObject)
    (huniq : (bodies.filter (fun b => b.gameObject.oid == g.oid)).length ≤ 1) :
    destroy (destroy bodies g).1 g = ((destroy bodies g).1, []) := by
  induction bodies with
  | nil => rfl
  | cons b bs ih =>
    by_cases hb : (b.gameObject.oid == g.oid) = true
    · have hfind : (b :: bs).find? (fun x => x.gameObject.oid == g.oid) = some b :=
        List.find?_cons_of_pos _ hb
      have hidx : (b :: bs).findIdx (fun x => x.gameObject.oid == g.oid) = 0 := by
        simp [List.findIdx_cons, hb]
      have hfil : bs.filter (fun x => x.gameObject.oid == g.oid) = [] := by
        rw [List.filter_cons_of_pos
          (p := fun (x : RidgiBodyObject) => x.gameObject.oid == g.oid) hb] at huniq
        simp only [List.length_cons] at huniq
        have hlen : (bs.filter (fun x => x.gameObject.oid == g.oid)).length = 0 := by omega
        exact List.length_eq_zero.mp hlen
      have hnone : bs.find? (fun x => x.gameObject.oid == g.oid) = none := by
        rw [List.find?_eq_none]
        intro x hx
        have := List.filter_eq_nil_iff.mp hfil x hx
        simpa using this
      have h1 : destroy (b :: bs) g =
          (bs, [DestroyEvent.removeRigidBody b.rigidBody,
                DestroyEvent.destroyGameObject b.gameObject.oid,
                DestroyEvent.spliceAssociation 0]) := by
        unfold destroy
        rw [hfind, hidx]
        rfl
      rw [h1]
      exact destroy_of_find_eq_none bs g hnone
    · have hb' : (b.gameObject.oid == g.oid) = false := by
        simpa using hb
      have hfind : (b :: bs).find? (fun x => x.gameObject.oid == g.oid) =
          bs.find? (fun x => x.gameObject.oid == g.oid) :=
        List.find?_cons_of_neg _ (by simp [hb'])
      have huniq' : (bs.filter (fun x => x.gameObject.oid == g.oid)).length ≤ 1 := by
        rw [List.filter_cons_of_neg (by simp [hb'])] at huniq
        exact huniq
      cases hfb : bs.find? (fun x => x.gameObject.oid == g.oid) with
      | none =>
        have h1 : destroy (b :: bs) g = (b :: bs, []) :=
          destroy_of_find_eq_none _ _ (by rw [hfind, hfb])
        rw [h1]
        exact h1
      | some c =>
        have hidx : (b :: bs).findIdx (fun x => x.gameObject.oid == g.oid) =
            bs.findIdx (fun x => x.gameObject.oid == g.oid) + 1 := by
          simp [List.findIdx_cons, hb']
        have h1 : destroy (b :: bs) g =
            (b :: bs.eraseIdx (bs.findIdx (fun x => x.gameObject.oid == g.oid)),
             [DestroyEvent.removeRigidBody c.rigidBody,
              DestroyEvent.destroyGameObject c.gameObject.oid,
              DestroyEvent.spliceAssociation
                (bs.findIdx (fun x => x.gameObject.oid == g.oid) + 1)]) := by
          unfold destroy
          rw [hfind, hfb, hidx]
          rfl
        have h2 : (destroy bs g).1 =
            bs.eraseIdx (bs.findIdx (fun x => x.gameObject.oid == g.oid)) := by
          unfold destroy
          rw [hfb]
        have h3 := ih huniq'
        have hnone2 : (destroy bs g).1.find? (fun x => x.gameObject.oid == g.oid) = none :=
          find_eq_none_of_destroy_snd_nil _ _ (by rw [h3])
        rw [h1]
        apply destroy_of_find_eq_none
        rw [List.find?_cons_of_neg _ (by simp [hb']), ← h2]
        exact hnone2

/-- Closed form of the debug-render loop: starting at offset `4 * j` with
enough fuel, the `k`-th emitted segment is `codeSegment` at index `j + k`. -/
theorem debugLoopAux_get?_spec (vs cs : List Rat) :
    ∀ (fuel j k : Nat), vs.length ≤ 4 * j + fuel →
      (debugLoopAux vs cs (4 * j) fuel).get? k =
        if 4 * (j + k) < vs.length then some (codeSegment vs cs (j + k)) else none := by
  intro fuel
  induction fuel with
  | zero =>
    intro j k h
    rw [debugLoopAux, if_neg (by omega)]
    rfl
  | succ n ih =>
    intro j k h
    rw [debugLoopAux]
    by_cases hlt : 4 * j < vs.length
    · rw [if_pos hlt]
      cases k with
      | zero =>
        rw [if_pos (by omega)]
        have e8 : 4 * j * 2 = 8 * j := by ring
        simp only [List.get?, codeSegment, Nat.add_zero, e8]
      | succ m =>
        have e : 4 * j + 4 = 4 * (j + 1) := by ring
        have e2 : j + 1 + m = j + (m + 1) := by omega
        simp only [List.get?]
        rw [e, ih (j + 1) m (by omega), e2]
    · rw [if_neg hlt, if_neg (by omega)]
      rfl

/-! ### Claim theorems -/

/-- C1: attaching with one of the unimplemented shape-kind enums (TriMesh,
HalfSpace, Segment, ConvexPolygon, RoundConvexPolygon) never aborts:
`addRidgiBody` completes and returns the full association record, with the
collider left as the unusable raw enum value, and it emits exactly one
non-empty, non-fatal diagnostic. -/
theorem attach_unsupported_shape_no_throw (g : GameObject) (rbt : Option RigidBodyType)
    (pt : Option Bool) (s : ShapeType)
    (h : s = ShapeType.TriMesh ∨ s = ShapeType.HalfSpace ∨ s = ShapeType.Segment ∨
         s = ShapeType.ConvexPolygon ∨ s = ShapeType.RoundConvexPolygon) :
    addRidgiBody g rbt (some (ColliderOpt.shape s)) pt =
      ({ rigidBody :=
          { bodyType := selectBodyType rbt
            translation := ⟨g.x, g.y⟩
            rotation := g.rotation
            nextTranslation := none
            nextRotation := none }
         collider := { shape := ResolvedCollider.raw s, rotation := g.rotation }
         gameObject := g
         phaserTransformations := pt.getD false },
       [unimplementedMsg s]) ∧ unimplementedMsg s ≠ "" := by
  rcases h with h | h | h | h | h <;> subst h <;> exact ⟨rfl, by decide⟩

/-- Witness for C1 at a concrete display object and the TriMesh enum. -/
theorem attach_unsupported_shape_no_throw_witness :
    addRidgiBody gSample none (some (ColliderOpt.shape ShapeType.TriMesh)) none =
      ({ rigidBody :=
          { bodyType := RigidBodyType.Dynamic
            translation := ⟨10, 20⟩
            rotation := 1/2
            nextTranslation := none
            nextRotation := none }
         collider := { shape := ResolvedCollider.raw ShapeType.TriMesh, rotation := 1/2 }
         gameObject := gSample
         phaserTransformations := false },
       ["TriMesh not implemented, please use a ColliderDesc object"]) :=
  (attach_unsupported_shape_no_throw gSample none none ShapeType.TriMesh (Or.inl rfl)).1

/-- C2: for a KinematicPositionBased body with mirroring enabled, the sync
step sets the next kinematic translation to
(x - displayWidth * (originX - 0.5), y), the next kinematic rotation to the
display rotation, and the collider rotation to the display rotation, and
changes nothing else. -/
theorem kpb_mirror_sync_targets (a : RidgiBodyObject)
    (hp : a.phaserTransformations = true)
    (hk : a.rigidBody.bodyType = RigidBodyType.KinematicPositionBased) :
    syncAssociation a =
      ({ a with
          rigidBody :=
            { a.rigidBody with
                nextTranslation := some
                  ⟨a.gameObject.x - a.gameObject.displayWidth * (a.gameObject.originX - 1/2),
                   a.gameObject.y⟩
                nextRotation := some a.gameObject.rotation }
          collider := { a.collider with rotation := a.gameObject.rotation } }, []) := by
  simp [syncAssociation, hp, hk]

/-- Witness for C2 at a concrete KinematicPositionBased association. -/
theorem kpb_mirror_sync_targets_witness :
    syncAssociation aKpbMirror =
      ({ aKpbMirror with
          rigidBody :=
            { aKpbMirror.rigidBody with
                nextTranslation := some ⟨10 - 8 * (1/4 - 1/2), 20⟩
                nextRotation := some (1/2) }
          collider := { aKpbMirror.collider with rotation := 1/2 } }, []) :=
  kpb_mirror_sync_targets aKpbMirror rfl rfl

/-- C3: for every display object and every options record, the body created
by `addRidgiBody` starts at the display object's position and rotation as
read at attach time. -/
theorem attach_initial_pose (g : GameObject) (rbt : Option RigidBodyType)
    (cd : Option ColliderOpt) (pt : Option Bool) :
    (addRidgiBody g rbt cd pt).1.rigidBody.translation = ⟨g.x, g.y⟩ ∧
    (addRidgiBody g rbt cd pt).1.rigidBody.rotation = g.rotation :=
  ⟨rfl, rfl⟩

/-- C4: on positive display bounds, the shape-kind-enum-to-collider mapping
of `addRidgiBody` agrees with the reference mapping `specShapeMap` written
from the specification, and the default (no shape given) is the bounding-box
cuboid. -/
theorem shape_mapping_matches_spec (dW dH : Rat) (h1 : 0 < dW) (h2 : 0 < dH) :
    resolveCollider none dW dH =
      (ResolvedCollider.usable (ColliderDesc.cuboid (dW / 2) (dH / 2)), []) ∧
    ∀ s d, specShapeMap s dW dH = some d →
      resolveCollider (some (ColliderOpt.shape s)) dW dH = (ResolvedCollider.usable d, []) := by
  refine ⟨rfl, ?_⟩
  intro s d hd
  cases s <;> simp [specShapeMap] at hd <;> subst hd <;> rfl

/-- Witness for C4 at width 8, height 6, with the Ball shape kind. -/
theorem shape_mapping_matches_spec_witness :
    (0 : Rat) < 8 ∧ (0 : Rat) < 6 ∧
    resolveCollider (some (ColliderOpt.shape ShapeType.Ball)) 8 6 =
      (ResolvedCollider.usable (ColliderDesc.ball (8 / 2)), []) :=
  ⟨by norm_num, by norm_num,
   (shape_mapping_matches_spec 8 6 (by norm_num) (by norm_num)).2
     ShapeType.Ball (ColliderDesc.ball (8 / 2)) rfl⟩

/-- Counterexample for C5 as frozen: a Fixed body with mirroring enabled is
not KinematicPositionBased, yet the sync step emits no diagnostic at all
(the association is skipped by the `isFixed` check before the mirroring
branch is reached); the no-state-change part does hold. -/
theorem mirror_misuse_fixed_cex :
    aFixedMirror.phaserTransformations = true ∧
    aFixedMirror.rigidBody.bodyType ≠ RigidBodyType.KinematicPositionBased ∧
    (syncAssociation aFixedMirror).2 = [] ∧
    (syncAssociation aFixedMirror).1 = aFixedMirror :=
  ⟨rfl, by decide, rfl, rfl⟩

/-- C5 (amended: the body must also not be Fixed, since Fixed bodies are
skipped before the mirroring check and produce no diagnostic): when
mirroring is enabled on a non-Fixed, non-KinematicPositionBased body, the
sync step after a simulation step reports the misuse diagnostic and changes
nothing - the body keeps exactly the state the step gave it and the display
object is untouched. -/
theorem mirror_misuse_diag_no_change (a : RidgiBodyObject) (step : RigidBody → RigidBody)
    (hp : a.phaserTransformations = true)
    (hf : (step a.rigidBody).bodyType ≠ RigidBodyType.Fixed)
    (hk : (step a.rigidBody).bodyType ≠ RigidBodyType.KinematicPositionBased) :
    syncAssociation { a with rigidBody := step a.rigidBody } =
      ({ a with rigidBody := step a.rigidBody }, [mirrorMisuseMsg]) := by
  simp [syncAssociation, hp, hf, hk]

/-- Witness for C5's amended theorem at a concrete Dynamic association. -/
theorem mirror_misuse_diag_no_change_witness :
    syncAssociation { aDynMirror with rigidBody := stepSample aDynMirror.rigidBody } =
      ({ aDynMirror with rigidBody := stepSample aDynMirror.rigidBody },
       [mirrorMisuseMsg]) :=
  mirror_misuse_diag_no_change aDynMirror stepSample rfl (by decide) (by decide)

/-- C6: `destroy` is a no-op without error when the display object has no
association; when it has one, the side effects are, in order, removing the
rigid body from the world, destroying the display object, and splicing the
association out of the list; and (given at most one association per display
object) a second `destroy` of the same display object is a no-op, leaving
the list length unchanged. -/
theorem destroy_contract (bodies : List RidgiBodyObject) (g : GameObject)
    (huniq : (bodies.filter (fun b => b.gameObject.oid == g.oid)).length ≤ 1) :
    (bodies.find? (fun b => b.gameObject.oid == g.oid) = none →
        destroy bodies g = (bodies, [])) ∧
    (∀ b, bodies.find? (fun b => b.gameObject.oid == g.oid) = some b →
        (destroy bodies g).2 =
          [DestroyEvent.removeRigidBody b.rigidBody,
           DestroyEvent.destroyGameObject b.gameObject.oid,
           DestroyEvent.spliceAssociation
             (bodies.findIdx (fun b => b.gameObject.oid == g.oid))]) ∧
    destroy (destroy bodies g).1 g = ((destroy bodies g).1, []) := by
  refine ⟨fun h => destroy_of_find_eq_none bodies g h, ?_, destroy_destroy bodies g huniq⟩
  intro b hb
  unfold destroy
  rw [hb]

/-- Witness for C6 on a one-element association list. -/
theorem destroy_contract_witness :
    ([aKpbMirror].filter (fun b => b.gameObject.oid == gSample.oid)).length ≤ 1 ∧
    destroy (destroy [aKpbMirror] gSample).1 gSample =
      ((destroy [aKpbMirror] gSample).1, []) :=
  ⟨by decide, (destroy_contract [aKpbMirror] gSample (by decide)).2.2⟩

/-- Counterexample for C7 as frozen: on concrete two-segment buffers the
drawn segment at index 1 takes its color channels from positions 8..11 of
the colors buffer, not from positions 4..7 as the claimed lockstep (four
floats per segment in both buffers) indexing predicts. -/
theorem debug_color_lockstep_cex :
    (debugDraw vsEx csEx).get? 1 = some (codeSegment vsEx csEx 1) ∧
    codeSegment vsEx csEx 1 ≠ claimSegment vsEx csEx 1 := by
  refine ⟨rfl, fun h => ?_⟩
  have hr := congrArg DrawnSegment.red255 h
  simp only [codeSegment, claimSegment, csEx, List.getD, List.get?, Option.getD] at hr
  norm_num at hr

/-- C7 (amended: the color channels for segment k sit at positions
8k..8k+3 of the colors buffer - the colors buffer carries four floats per
vertex, eight per drawn segment, and the code uses the first endpoint's
color): for every buffer pair and every in-range segment index k, the k-th
drawn segment reads vertex floats 4k..4k+3 and color floats 8k..8k+3, with
r, g, b scaled by 255 and a passed as the alpha. -/
theorem debug_draw_segment_indices (vs cs : List Rat) (k : Nat) (h : 4 * k < vs.length) :
    (debugDraw vs cs).get? k = some (codeSegment vs cs k) ∧
    codeSegment vs cs k =
      { x1 := vs.getD (4 * k) 0
        y1 := vs.getD (4 * k + 1) 0
        x2 := vs.getD (4 * k + 2) 0
        y2 := vs.getD (4 * k + 3) 0
        red255 := cs.getD (8 * k) 0 * 255
        green255 := cs.getD (8 * k + 1) 0 * 255
        blue255 := cs.getD (8 * k + 2) 0 * 255
        alpha := cs.getD (8 * k + 3) 0 } := by
  constructor
  · have hspec := debugLoopAux_get?_spec vs cs vs.length 0 k (by omega)
    rw [Nat.mul_zero] at hspec
    rw [Nat.zero_add] at hspec
    unfold debugDraw
    rw [hspec, if_pos h]
  · rfl

/-- Witness for C7's amended theorem at segment index 0 of the concrete
buffers. -/
theorem debug_draw_segment_indices_witness :
    4 * 0 < vsEx.length ∧
    (debugDraw vsEx csEx).get? 0 = some (codeSegment vsEx csEx 0) :=
  ⟨by decide, (debug_draw_segment_indices vsEx csEx 0 (by decide)).1⟩

/-- C8: every attach prepends its association, and the sync loop visits the
list front to back, so the per-frame visit order is the reverse of the
attachment order. -/
theorem sync_order_reverse_of_attach (bodies : List RidgiBodyObject) (gs : List GameObject) :
    updateOrder (attachAll bodies gs) =
      (gs.map (fun g => g.oid)).reverse ++ updateOrder bodies := by
  induction gs generalizing bodies with
  | nil => simp [attachAll, updateOrder]
  | cons g gs ih =>
    have h1 : attachAll bodies (g :: gs) =
        attachAll ((addRigidBodyOp bodies g none none none).1) gs := rfl
    rw [h1, ih]
    simp [addRigidBodyOp, addRidgiBody, updateOrder]

/-- C9: an association whose body is Fixed is skipped by the sync step, so
over any sequence of simulation steps (which may move body state but keep
its kind) the adapter never changes the display object's fields. -/
theorem fixed_body_display_unchanged (a : RidgiBodyObject)
    (steps : List (RigidBody → RigidBody))
    (hfix : a.rigidBody.bodyType = RigidBodyType.Fixed)
    (hpres : ∀ f ∈ steps, ∀ rb, (f rb).bodyType = rb.bodyType) :
    (steps.foldl (fun acc f => stepAndSync f acc) a).gameObject = a.gameObject := by
  induction steps generalizing a with
  | nil => rfl
  | cons f fs ih =>
    have h1 : (f a.rigidBody).bodyType = RigidBodyType.Fixed := by
      rw [hpres f (List.mem_cons_self f fs) a.rigidBody, hfix]
    have h2 : stepAndSync f a = { a with rigidBody := f a.rigidBody } := by
      unfold stepAndSync syncAssociation
      simp [h1]
    rw [List.foldl_cons, h2]
    exact ih { a with rigidBody := f a.rigidBody } h1
      (fun q hq rb => hpres q (List.mem_cons_of_mem f hq) rb)

/-- Witness for C9: one concrete simulation step on a concrete Fixed
association. -/
theorem fixed_body_display_unchanged_witness :
    ([stepSample].foldl (fun acc f => stepAndSync f acc) aFixedMirror).gameObject =
      aFixedMirror.gameObject :=
  fixed_body_display_unchanged aFixedMirror [stepSample] rfl (by
    intro f hf rb
    rcases List.mem_singleton.mp hf with rfl
    rfl)

/-- C10: the release function returned by `createEventQueue` acts on the
shared current-queue variable: after two creations the (shared) release
frees the second, currently active queue and deactivates event collection,
and releasing with no active queue is a no-op. -/
theorem event_queue_release_shared_state (s : QueueState) :
    (createEventQueue s).2 ≠ (createEventQueue (createEventQueue s).1).2 ∧
    releaseEventQueue (createEventQueue (createEventQueue s).1).1 =
      { eventQueue := none, nextId := s.nextId + 2,
        freed := s.freed ++ [(createEventQueue (createEventQueue s).1).2] } ∧
    stepUsesEvents (releaseEventQueue (createEventQueue (createEventQueue s).1).1) = false ∧
    releaseEventQueue { s with eventQueue := none } = { s with eventQueue := none } := by
  refine ⟨?_, rfl, rfl, rfl⟩
  simp only [createEventQueue]
  omega

end RapierConnector
